import Mathlib

/-!
Zama Dice front end: play-session orchestration.

A shallow embedding of `frontend/src/App.js`: the React state of `App`, the
three asynchronous handlers `playGame`, `fetchStats`, `fetchGameHistory`, and
the Play button that invokes `playGame`.

Each handler is a function from the state captured by the render closure and
from the answers of the external collaborators (encryption engine, backend,
timer) to the ordered list of effects the handler performs.  Replaying the
effects on the state gives the state after the handler has run.
-/

namespace ZamaDice

/-! ## JavaScript values -/

/-- Values that `response.json()` can resolve to.  `null` is also the initial
value of `gameResult`.  Numbers are integers written in decimal. -/
inductive Json where
  | null
  | bool (b : Bool)
  | num (n : Int)
  | str (s : String)
  | arr (items : List Json)
  | obj (fields : List (String × Json))

/-- JavaScript truthiness of a value. -/
def Json.truthy : Json → Bool
  | .null => false
  | .bool b => b
  | .num n => n != 0
  | .str s => s != ""
  | .arr _ => true
  | .obj _ => true

/-- Truthiness of the result of a property read (`none` is `undefined`). -/
def truthyProp : Option Json → Bool
  | none => false
  | some v => v.truthy

/-- The abstract operation `ToString` on parsed values, as used by
`new Error(value)` to build the message. -/
def Json.toJsString : Json → String
  | .null => "null"
  | .bool true => "true"
  | .bool false => "false"
  | .num n => toString n
  | .str s => s
  | .arr items => ",".intercalate (joinItems items)
  | .obj _ => "[object Object]"
where
  /-- The pieces joined by `Array.prototype.join`: `null` items are empty. -/
  joinItems : List Json → List String
    | [] => []
    | .null :: rest => "" :: joinItems rest
    | v :: rest => v.toJsString :: joinItems rest

/-- Reading property `key` of a value that is not `null`: own fields of an
object, `undefined` (`none`) for every other value. -/
def Json.prop (key : String) : Json → Option Json
  | .obj fields => fields.lookup key
  | _ => none

/-- Reading `value.key`: a `TypeError` (with the engine's message) when the
value is `null`, otherwise the property or `undefined`. -/
def readProp (nullMessage : String) (value : Json) (key : String) :
    Except String (Option Json) :=
  match value with
  | .null => .error nullMessage
  | v => .ok (v.prop key)

/-! ## Data model -/

/-- The object held in `zamaInstance`.  `encrypt32 call value` is what the
`call`-th invocation (0 for `dice1`, 1 for `dice2`) of
`zamaInstance.encrypt32(value)` followed by `Array.from` yields: the
ciphertext words, or the message of the error raised on the way. -/
structure ZamaInstance where
  encrypt32 : Nat → Nat → Except String (List Nat)

/-- The `encryptedData` bundle built at lines 168-172. -/
structure EncryptedData where
  dice1 : List Nat
  dice2 : List Nat
  mode : String
  deriving DecidableEq, Repr

/-- The JSON body posted to `/api/play` (lines 188-194); `none` is `null`. -/
structure PlayRequest where
  player_address : Option String
  num_dice : Nat
  game_mode : String
  encrypted_data : Option EncryptedData
  environment_id : String
  deriving DecidableEq, Repr

/-- The `useState` cells of `App` (lines 7-19). -/
structure AppState where
  isConnected : Bool
  walletAddress : String
  isRolling : Bool
  gameResult : Json
  gameHistory : Json
  stats : Json
  showNFTModal : Bool
  error : String
  loading : Bool
  isLoadingStats : Bool
  isLoadingHistory : Bool
  zamaInstance : Option ZamaInstance
  isZamaReady : Bool

/-- The state right after the first render (initial `useState` values). -/
def AppState.initial : AppState :=
  { isConnected := false, walletAddress := "", isRolling := false,
    gameResult := .null, gameHistory := .arr [], stats := .obj [],
    showNFTModal := false, error := "", loading := false,
    isLoadingStats := false, isLoadingHistory := false,
    zamaInstance := none, isZamaReady := false }

/-- The constant `environmentId` (line 22). -/
def environmentId : String := "ead32e7f-5090-4060-9b60-97f68caa3cf8"

/-- How a `fetch` call followed by `response.json()` ends: the `fetch`
promise rejects, or a response with an HTTP status arrives whose body either
parses to a value or makes `response.json()` reject. -/
inductive FetchOutcome where
  | networkError (message : String)
  | response (status : Nat) (body : Except String Json)

/-- The getter `response.ok`: the status is in the range 200-299. -/
def statusOk (status : Nat) : Bool :=
  decide (200 ≤ status) && decide (status ≤ 299)

/-- Answers of the external collaborators during one handler run. -/
structure Env where
  /-- `Math.floor(Math.random() * 6)` for `dice1`. -/
  randomFloor1 : Fin 6
  /-- `Math.floor(Math.random() * 6)` for `dice2`. -/
  randomFloor2 : Fin 6
  /-- The backend answer to a `POST /api/play` with the given body. -/
  playFetch : PlayRequest → FetchOutcome
  /-- The backend answer to `GET /api/stats`. -/
  statsFetch : FetchOutcome
  /-- The backend answer to `GET /api/games?limit=5`. -/
  gamesFetch : FetchOutcome
  /-- Message of the `TypeError` raised by assigning to a `const` binding. -/
  constAssignMessage : String
  /-- Message of the `TypeError` raised by reading a property of `null`. -/
  nullPropertyMessage : String
  /-- Milliseconds each `await zamaInstance.encrypt32(..)` takes. -/
  encryptElapsed : Nat
  /-- Milliseconds `await fetch(..)` takes. -/
  fetchElapsed : Nat
  /-- Milliseconds `await response.json()` takes. -/
  jsonElapsed : Nat
  /-- Milliseconds by which a timer fires later than requested. -/
  timerSlack : Nat

/-- The observable steps of the handlers, in program order. -/
inductive Effect where
  | setIsRolling (b : Bool)
  | setGameResult (r : Json)
  | setError (msg : String)
  | setShowNFTModal (b : Bool)
  | setStats (data : Json)
  | setGameHistory (games : Json)
  | setIsLoadingStats (b : Bool)
  | setIsLoadingHistory (b : Bool)
  /-- The call `await zamaInstance.encrypt32(value)`. -/
  | awaitEncrypt32 (value : Nat) (elapsed : Nat)
  /-- The call `await fetch(backendUrl + "/api/play", ..)` with this body. -/
  | awaitFetchPlay (body : PlayRequest) (elapsed : Nat)
  /-- The call `await fetch(backendUrl + "/api/stats")`. -/
  | awaitFetchStats (elapsed : Nat)
  /-- The call `await fetch(backendUrl + "/api/games?limit=5")`. -/
  | awaitFetchGames (elapsed : Nat)
  /-- The call `await response.json()`. -/
  | awaitJson (elapsed : Nat)
  /-- The wait `await new Promise(resolve => setTimeout(resolve, ms))`. -/
  | awaitTimeout (ms : Nat) (slack : Nat)
  /-- The un-awaited call `fetchStats()` (line 213). -/
  | callFetchStats
  /-- The un-awaited call `fetchGameHistory()` (line 214). -/
  | callFetchGameHistory

/-- Milliseconds during which the handler is suspended at this step. -/
def Effect.duration : Effect → Nat
  | .awaitEncrypt32 _ ms => ms
  | .awaitFetchPlay _ ms => ms
  | .awaitFetchStats ms => ms
  | .awaitFetchGames ms => ms
  | .awaitJson ms => ms
  | .awaitTimeout ms slack => ms + slack
  | _ => 0

/-- Steps at which a handler is suspended: while it waits, the steps of other
handlers can run. -/
def Effect.isAwait : Effect → Bool
  | .awaitEncrypt32 _ _ => true
  | .awaitFetchPlay _ _ => true
  | .awaitFetchStats _ => true
  | .awaitFetchGames _ => true
  | .awaitJson _ => true
  | .awaitTimeout _ _ => true
  | _ => false

/-- Steps that handlers other than `playGame` can perform: `setIsRolling` and
`setGameResult` are called by `playGame` only (lines 141-142, 207, 219). -/
def Effect.fromOtherHandler : Effect → Bool
  | .setIsRolling _ => false
  | .setGameResult _ => false
  | _ => true

/-- Whether the step is a call of `setError`. -/
def Effect.writesError : Effect → Bool
  | .setError _ => true
  | _ => false

/-- The state change of one step.  An un-awaited call to a fetcher runs the
callee up to its first `await`, which raises the callee's loading flag. -/
def applyEffect (s : AppState) : Effect → AppState
  | .setIsRolling b => { s with isRolling := b }
  | .setGameResult r => { s with gameResult := r }
  | .setError msg => { s with error := msg }
  | .setShowNFTModal b => { s with showNFTModal := b }
  | .setStats data => { s with stats := data }
  | .setGameHistory games => { s with gameHistory := games }
  | .setIsLoadingStats b => { s with isLoadingStats := b }
  | .setIsLoadingHistory b => { s with isLoadingHistory := b }
  | .callFetchStats => { s with isLoadingStats := true }
  | .callFetchGameHistory => { s with isLoadingHistory := true }
  | _ => s

/-- The state after the steps have been performed in order. -/
def runEffects (s : AppState) (trace : List Effect) : AppState :=
  trace.foldl applyEffect s

/-- What a `try` block did: the steps performed, and the message of the error
it threw, if it threw. -/
structure TryResult where
  trace : List Effect
  thrown : Option String

/-! ## `playGame` (lines 140-221) -/

/-- The binding `const gameMode = isZamaReady && zamaInstance ? 'fhe' :
'standard'` (line 147). -/
def gameModeOf (s : AppState) : String :=
  if s.isZamaReady && s.zamaInstance.isSome then "fhe" else "standard"

/-- The body of the inner `try` (lines 155-174): both dice are drawn, then
encrypted one after the other; the bundle is built when both calls succeed. -/
def encryptDice (env : Env) (s : AppState) :
    List Effect × Except String EncryptedData :=
  let dice1 := env.randomFloor1.val + 1
  let dice2 := env.randomFloor2.val + 1
  match s.zamaInstance with
  | none => ([], .error env.nullPropertyMessage)
  | some inst =>
    match inst.encrypt32 0 dice1 with
    | .error e => ([.awaitEncrypt32 dice1 env.encryptElapsed], .error e)
    | .ok c1 =>
      match inst.encrypt32 1 dice2 with
      | .error e =>
        ([.awaitEncrypt32 dice1 env.encryptElapsed,
          .awaitEncrypt32 dice2 env.encryptElapsed], .error e)
      | .ok c2 =>
        ([.awaitEncrypt32 dice1 env.encryptElapsed,
          .awaitEncrypt32 dice2 env.encryptElapsed],
         .ok { dice1 := c1, dice2 := c2, mode := "fhe" })

/-- Lines 151-181: `encryptedData` starts as `null`; under the guard
`gameMode === 'fhe' && isConnected` the dice are encrypted.  The `catch` of
the inner `try` runs `gameMode = 'standard'`, an assignment to a `const`
binding, which throws a `TypeError` out of the `catch` block. -/
def encryptStage (env : Env) (s : AppState) :
    List Effect × Except String (Option EncryptedData) :=
  if gameModeOf s == "fhe" && s.isConnected then
    match encryptDice env s with
    | (steps, .ok data) => (steps, .ok (some data))
    | (steps, .error _) => (steps, .error env.constAssignMessage)
  else ([], .ok none)

/-- The request body of lines 188-194. -/
def playBody (s : AppState) (encryptedData : Option EncryptedData) : PlayRequest :=
  { player_address := if s.isConnected then some s.walletAddress else none
    num_dice := 2
    game_mode := gameModeOf s
    encrypted_data := encryptedData
    environment_id := environmentId }

/-- The message of `new Error(errorData.detail || 'Failed to play game')`
(line 199). -/
def rejectionMessage (detail : Option Json) : String :=
  match detail with
  | some v => if v.truthy then v.toJsString else "Failed to play game"
  | none => "Failed to play game"

/-- Lines 183-214 from the point where the `fetch` promise settles. -/
def handlePlayResponse (env : Env) : FetchOutcome → TryResult
  | .networkError msg => ⟨[], some msg⟩
  | .response status body =>
    if !statusOk status then
      match body with
      | .error msg => ⟨[.awaitJson env.jsonElapsed], some msg⟩
      | .ok errorData =>
        match readProp env.nullPropertyMessage errorData "detail" with
        | .error msg => ⟨[.awaitJson env.jsonElapsed], some msg⟩
        | .ok detail => ⟨[.awaitJson env.jsonElapsed], some (rejectionMessage detail)⟩
    else
      match body with
      | .error msg => ⟨[.awaitJson env.jsonElapsed], some msg⟩
      | .ok result =>
        match readProp env.nullPropertyMessage result "nft_generated" with
        | .error msg =>
          ⟨[.awaitJson env.jsonElapsed, .awaitTimeout 2000 env.timerSlack,
            .setGameResult result], some msg⟩
        | .ok flag =>
          ⟨[.awaitJson env.jsonElapsed, .awaitTimeout 2000 env.timerSlack,
            .setGameResult result]
            ++ (if truthyProp flag then [.setShowNFTModal true] else [])
            ++ [.callFetchStats, .callFetchGameHistory], none⟩

/-- The outer `try` block (lines 145-214). -/
def playGameTry (env : Env) (s : AppState) : TryResult :=
  match encryptStage env s with
  | (steps, .error msg) => ⟨steps, some msg⟩
  | (steps, .ok encryptedData) =>
    let body := playBody s encryptedData
    let rest := handlePlayResponse env (env.playFetch body)
    ⟨steps ++ [.awaitFetchPlay body env.fetchElapsed] ++ rest.trace, rest.thrown⟩

/-- The expression `error.message || 'Failed to play game. Please try
again.'` (line 217). -/
def catchMessage (msg : String) : String :=
  if msg = "" then "Failed to play game. Please try again." else msg

/-- The `catch` block (lines 215-217), entered when the `try` block threw. -/
def playGameCatch : Option String → List Effect
  | some msg => [.setError (catchMessage msg)]
  | none => []

/-- The handler `playGame`: the three setters of lines 141-143, the `try`
block, the `catch` block and the `finally` block (line 219). -/
def playGame (env : Env) (s : AppState) : List Effect :=
  [.setIsRolling true, .setGameResult .null, .setError ""]
    ++ (playGameTry env s).trace
    ++ playGameCatch (playGameTry env s).thrown
    ++ [.setIsRolling false]

/-- The Play button (lines 437-440): `onClick={playGame}` with
`disabled={isRolling}`; a disabled button dispatches no click. -/
def playButtonClick (env : Env) (s : AppState) : List Effect :=
  if s.isRolling then [] else playGame env s

/-! ## `fetchStats` (lines 223-238) and `fetchGameHistory` (lines 240-255) -/

/-- The `try` block of `fetchStats` (lines 226-231). -/
def fetchStatsTry (env : Env) : TryResult :=
  match env.statsFetch with
  | .networkError msg => ⟨[.awaitFetchStats env.fetchElapsed], some msg⟩
  | .response status body =>
    if !statusOk status then
      ⟨[.awaitFetchStats env.fetchElapsed], some "Failed to fetch stats"⟩
    else
      match body with
      | .error msg =>
        ⟨[.awaitFetchStats env.fetchElapsed, .awaitJson env.jsonElapsed], some msg⟩
      | .ok data =>
        ⟨[.awaitFetchStats env.fetchElapsed, .awaitJson env.jsonElapsed,
          .setStats data], none⟩

/-- The `catch` block of `fetchStats` (lines 232-234). -/
def fetchStatsCatch : Option String → List Effect
  | some _ => [.setError "Failed to load statistics"]
  | none => []

/-- The handler `fetchStats`. -/
def fetchStats (env : Env) : List Effect :=
  [.setIsLoadingStats true]
    ++ (fetchStatsTry env).trace
    ++ fetchStatsCatch (fetchStatsTry env).thrown
    ++ [.setIsLoadingStats false]

/-- The expression `data.games || []` (line 248), given the property read. -/
def gamesOrEmpty (games : Option Json) : Json :=
  match games with
  | some v => if v.truthy then v else .arr []
  | none => .arr []

/-- The `try` block of `fetchGameHistory` (lines 243-248). -/
def fetchGameHistoryTry (env : Env) : TryResult :=
  match env.gamesFetch with
  | .networkError msg => ⟨[.awaitFetchGames env.fetchElapsed], some msg⟩
  | .response status body =>
    if !statusOk status then
      ⟨[.awaitFetchGames env.fetchElapsed], some "Failed to fetch game history"⟩
    else
      match body with
      | .error msg =>
        ⟨[.awaitFetchGames env.fetchElapsed, .awaitJson env.jsonElapsed], some msg⟩
      | .ok data =>
        match readProp env.nullPropertyMessage data "games" with
        | .error msg =>
          ⟨[.awaitFetchGames env.fetchElapsed, .awaitJson env.jsonElapsed], some msg⟩
        | .ok games =>
          ⟨[.awaitFetchGames env.fetchElapsed, .awaitJson env.jsonElapsed,
            .setGameHistory (gamesOrEmpty games)], none⟩

/-- The `catch` block of `fetchGameHistory` (lines 249-251). -/
def fetchGameHistoryCatch : Option String → List Effect
  | some _ => [.setError "Failed to load game history"]
  | none => []

/-- The handler `fetchGameHistory`. -/
def fetchGameHistory (env : Env) : List Effect :=
  [.setIsLoadingHistory true]
    ++ (fetchGameHistoryTry env).trace
    ++ fetchGameHistoryCatch (fetchGameHistoryTry env).thrown
    ++ [.setIsLoadingHistory false]

/-! ## Observations on a run -/

/-- The bodies posted to `/api/play` during a run, in order. -/
def playRequests : List Effect → List PlayRequest
  | [] => []
  | .awaitFetchPlay body _ :: rest => body :: playRequests rest
  | _ :: rest => playRequests rest

/-- Whether the run performs a timer wait. -/
def hasTimeout : List Effect → Bool
  | [] => false
  | .awaitTimeout _ _ :: _ => true
  | _ :: rest => hasTimeout rest

/-- Milliseconds the run spends while `isRolling` is `true`; the first
argument is the value of `isRolling` when the steps start. -/
def rollingTime : Bool → List Effect → Nat
  | _, [] => 0
  | _, .setIsRolling b :: rest => rollingTime b rest
  | rolling, e :: rest => (if rolling then e.duration else 0) + rollingTime rolling rest

/-- The steps of a handler run with steps of other handlers in between: the
`i`-th block runs right after the `i`-th step of the handler when that step is
an await (the handler is suspended there); a block placed at a step that is
not an await cannot run there and is left out. -/
def interleave : List Effect → List (List Effect) → List Effect
  | [], _ => []
  | e :: rest, [] => e :: rest
  | e :: rest, block :: blocks =>
    e :: ((if e.isAwait then block else []) ++ interleave rest blocks)

/-- Whether the run makes the un-awaited call `fetchStats()`. -/
def callsFetchStats : List Effect → Bool
  | [] => false
  | .callFetchStats :: _ => true
  | _ :: rest => callsFetchStats rest

/-- Whether the run makes the un-awaited call `fetchGameHistory()`. -/
def callsFetchGameHistory : List Effect → Bool
  | [] => false
  | .callFetchGameHistory :: _ => true
  | _ :: rest => callsFetchGameHistory rest

/-- A fetch that failed: the network call rejected or the status is not 2xx. -/
def FetchOutcome.failed : FetchOutcome → Bool
  | .networkError _ => true
  | .response status _ => !statusOk status

/-! ## Sample inputs -/

/-- An engine whose two encryption calls succeed. -/
def sampleInstance : ZamaInstance :=
  { encrypt32 := fun call value => .ok [call, value] }

/-- An engine whose first encryption call fails. -/
def failingInstance : ZamaInstance :=
  { encrypt32 := fun _ _ => .error "encrypt32 failed" }

/-- A backend result for a roll of 3 and 4. -/
def sampleResult : Json :=
  .obj [("dice_results", .arr [.num 3, .num 4]), ("total_score", .num 7),
        ("nft_generated", .bool false)]

/-- An environment whose backend answers every request with `out`. -/
def sampleEnv (out : FetchOutcome) : Env :=
  { randomFloor1 := 2, randomFloor2 := 3,
    playFetch := fun _ => out, statsFetch := out, gamesFetch := out,
    constAssignMessage := "Assignment to constant variable.",
    nullPropertyMessage := "Cannot read properties of null",
    encryptElapsed := 5, fetchElapsed := 10, jsonElapsed := 1, timerSlack := 0 }

/-- A backend that answers a roll with `sampleResult` while the request for
the statistics fails. -/
def lateStatsFailureEnv : Env :=
  { sampleEnv (.response 200 (.ok sampleResult)) with
    statsFetch := .networkError "Failed to fetch" }

/-- Encryption ready (as after `initializeZama`), no wallet connected. -/
def readyNoWallet : AppState :=
  { AppState.initial with zamaInstance := some sampleInstance, isZamaReady := true }

/-- Wallet connected and encryption ready. -/
def readyWithWallet (inst : ZamaInstance) : AppState :=
  { AppState.initial with
    isConnected := true, walletAddress := "0xabc",
    zamaInstance := some inst, isZamaReady := true }


/-! ## Shapes of a run -/

/-- The shapes a run of the outer `try` block can take. -/
inductive TryShape (env : Env) (s : AppState) : TryResult → Prop where
  /-- Encryption was attempted and failed: the `const` assignment threw. -/
  | encryptFailed (steps : List Effect)
      (hsteps : ∀ e ∈ steps, ∃ v ms, e = .awaitEncrypt32 v ms)
      (hconn : s.isConnected = true) (hmode : gameModeOf s = "fhe") :
      TryShape env s ⟨steps, some env.constAssignMessage⟩
  /-- The request was sent and failed before a result was parsed. -/
  | rejected (steps : List Effect) (data : Option EncryptedData) (tail : List Effect)
      (msg : String)
      (hsteps : ∀ e ∈ steps, ∃ v ms, e = .awaitEncrypt32 v ms)
      (htail : tail = [] ∨ tail = [.awaitJson env.jsonElapsed])
      (hfetch : ∀ status result,
        env.playFetch (playBody s data) = .response status (.ok result) →
        statusOk status = false) :
      TryShape env s
        ⟨steps ++ [.awaitFetchPlay (playBody s data) env.fetchElapsed] ++ tail, some msg⟩
  /-- A 2xx response whose body is `null`: reading `nft_generated` threw. -/
  | nullResult (steps : List Effect) (data : Option EncryptedData) (status : Nat)
      (hsteps : ∀ e ∈ steps, ∃ v ms, e = .awaitEncrypt32 v ms)
      (hfetch : env.playFetch (playBody s data) = .response status (.ok .null))
      (hok : statusOk status = true) :
      TryShape env s
        ⟨steps ++ [.awaitFetchPlay (playBody s data) env.fetchElapsed]
          ++ [.awaitJson env.jsonElapsed, .awaitTimeout 2000 env.timerSlack,
              .setGameResult .null], some env.nullPropertyMessage⟩
  /-- A 2xx response with a parsed result other than `null`. -/
  | resolved (steps : List Effect) (data : Option EncryptedData) (status : Nat)
      (result : Json) (modal : List Effect)
      (hsteps : ∀ e ∈ steps, ∃ v ms, e = .awaitEncrypt32 v ms)
      (hfetch : env.playFetch (playBody s data) = .response status (.ok result))
      (hok : statusOk status = true) (hres : result ≠ .null)
      (hmodal : modal = [] ∨ modal = [.setShowNFTModal true]) :
      TryShape env s
        ⟨steps ++ [.awaitFetchPlay (playBody s data) env.fetchElapsed]
          ++ ([.awaitJson env.jsonElapsed, .awaitTimeout 2000 env.timerSlack,
              .setGameResult result] ++ modal
              ++ [.callFetchStats, .callFetchGameHistory]), none⟩

/-! ## Replay lemmas -/

theorem runEffects_nil (s : AppState) : runEffects s [] = s := rfl

theorem runEffects_cons (s : AppState) (e : Effect) (rest : List Effect) :
    runEffects s (e :: rest) = runEffects (applyEffect s e) rest := rfl

theorem runEffects_append (s : AppState) (xs ys : List Effect) :
    runEffects s (xs ++ ys) = runEffects (runEffects s xs) ys := by
  simp [runEffects, List.foldl_append]

theorem catchMessage_ne_empty (msg : String) : catchMessage msg ≠ "" := by
  unfold catchMessage
  split
  · decide
  · assumption



theorem encryptDice_steps (env : Env) (s : AppState) :
    ∀ e ∈ (encryptDice env s).1, ∃ v ms, e = .awaitEncrypt32 v ms := by
  intro e he
  cases hinst : s.zamaInstance with
  | none => simp [encryptDice, hinst] at he
  | some inst =>
    cases h1 : inst.encrypt32 0 (env.randomFloor1.val + 1) with
    | error e1 =>
      simp [encryptDice, hinst, h1] at he
      exact ⟨_, _, he⟩
    | ok c1 =>
      cases h2 : inst.encrypt32 1 (env.randomFloor2.val + 1) with
      | error e2 =>
        simp [encryptDice, hinst, h1, h2] at he
        rcases he with he | he <;> exact ⟨_, _, he⟩
      | ok c2 =>
        simp [encryptDice, hinst, h1, h2] at he
        rcases he with he | he <;> exact ⟨_, _, he⟩

theorem handlePlayResponse_shape (env : Env) (s : AppState) (steps : List Effect)
    (data : Option EncryptedData)
    (hsteps : ∀ e ∈ steps, ∃ v ms, e = .awaitEncrypt32 v ms) :
    TryShape env s
      ⟨steps ++ [.awaitFetchPlay (playBody s data) env.fetchElapsed]
        ++ (handlePlayResponse env (env.playFetch (playBody s data))).trace,
       (handlePlayResponse env (env.playFetch (playBody s data))).thrown⟩ := by
  cases hout : env.playFetch (playBody s data) with
  | networkError msg =>
    have hnot : ∀ status result,
        env.playFetch (playBody s data) = .response status (.ok result) →
        statusOk status = false := by
      intro status result h
      rw [hout] at h
      cases h
    simpa [handlePlayResponse] using
      TryShape.rejected steps data [] msg hsteps (Or.inl rfl) hnot
  | response status body =>
    cases hok : statusOk status with
    | false =>
      have hnot : ∀ st result,
          env.playFetch (playBody s data) = .response st (.ok result) →
          statusOk st = false := by
        intro st result h
        rw [hout] at h
        cases h
        exact hok
      cases body with
      | error msg =>
        simpa [handlePlayResponse, hok] using
          TryShape.rejected steps data _ msg hsteps (Or.inr rfl) hnot
      | ok errorData =>
        cases errorData <;>
          simpa [handlePlayResponse, hok, readProp] using
            TryShape.rejected steps data _ _ hsteps (Or.inr rfl) hnot
    | true =>
      cases body with
      | error msg =>
        have hnot : ∀ st result,
            env.playFetch (playBody s data) = .response st (.ok result) →
            statusOk st = false := by
          intro st result h
          rw [hout] at h
          cases h
        simpa [handlePlayResponse, hok] using
          TryShape.rejected steps data _ msg hsteps (Or.inr rfl) hnot
      | ok result =>
        by_cases hnull : result = .null
        · subst hnull
          simpa [handlePlayResponse, hok, readProp] using
            TryShape.nullResult steps data status hsteps hout hok
        · have hshape := TryShape.resolved steps data status result
            (if truthyProp (result.prop "nft_generated") then [.setShowNFTModal true] else [])
            hsteps hout hok hnull (by split <;> simp)
          cases result <;> first
            | exact absurd rfl hnull
            | simpa [handlePlayResponse, hok, readProp] using hshape

theorem playGameTry_shape (env : Env) (s : AppState) :
    TryShape env s (playGameTry env s) := by
  by_cases hguard : (gameModeOf s == "fhe" && s.isConnected) = true
  · have hconn : s.isConnected = true := by simp at hguard; exact hguard.2
    have hmode : gameModeOf s = "fhe" := by simp at hguard; exact hguard.1
    have hsteps := encryptDice_steps env s
    cases hd : encryptDice env s with
    | mk steps res =>
      rw [hd] at hsteps
      cases res with
      | error e =>
        simpa [playGameTry, encryptStage, hconn, hmode, hd] using
          @TryShape.encryptFailed env s steps hsteps hconn hmode
      | ok data =>
        simpa [playGameTry, encryptStage, hconn, hmode, hd] using
          handlePlayResponse_shape env s steps (some data) hsteps
  · have hstage : encryptStage env s = ([], .ok none) := by
      unfold encryptStage
      rw [if_neg hguard]
    simpa [playGameTry, hstage] using
      handlePlayResponse_shape env s [] none (by simp)


/-! ## Observations through the pieces of a run -/

theorem runEffects_encryptSteps (s : AppState) (steps : List Effect)
    (hsteps : ∀ e ∈ steps, ∃ v ms, e = .awaitEncrypt32 v ms) :
    runEffects s steps = s := by
  induction steps with
  | nil => rfl
  | cons e rest ih =>
    obtain ⟨v, ms, rfl⟩ := hsteps e (by simp)
    rw [runEffects_cons]
    exact ih (fun e he => hsteps e (by simp [he]))

theorem playRequests_append (xs ys : List Effect) :
    playRequests (xs ++ ys) = playRequests xs ++ playRequests ys := by
  induction xs with
  | nil => rfl
  | cons e rest ih => cases e <;> simp [playRequests, ih]

theorem playRequests_encryptSteps (steps : List Effect)
    (hsteps : ∀ e ∈ steps, ∃ v ms, e = .awaitEncrypt32 v ms) :
    playRequests steps = [] := by
  induction steps with
  | nil => rfl
  | cons e rest ih =>
    obtain ⟨v, ms, rfl⟩ := hsteps e (by simp)
    simpa [playRequests] using ih (fun e he => hsteps e (by simp [he]))

theorem hasTimeout_append (xs ys : List Effect) :
    hasTimeout (xs ++ ys) = (hasTimeout xs || hasTimeout ys) := by
  induction xs with
  | nil => rfl
  | cons e rest ih => cases e <;> simp [hasTimeout, ih]

theorem hasTimeout_encryptSteps (steps : List Effect)
    (hsteps : ∀ e ∈ steps, ∃ v ms, e = .awaitEncrypt32 v ms) :
    hasTimeout steps = false := by
  induction steps with
  | nil => rfl
  | cons e rest ih =>
    obtain ⟨v, ms, rfl⟩ := hsteps e (by simp)
    simpa [hasTimeout] using ih (fun e he => hsteps e (by simp [he]))

theorem rollingTime_encryptSteps (rolling : Bool) (steps rest : List Effect)
    (hsteps : ∀ e ∈ steps, ∃ v ms, e = .awaitEncrypt32 v ms) :
    rollingTime rolling rest ≤ rollingTime rolling (steps ++ rest) := by
  induction steps with
  | nil => exact Nat.le_refl _
  | cons e tail ih =>
    obtain ⟨v, ms, rfl⟩ := hsteps e (by simp)
    have := ih (fun e he => hsteps e (by simp [he]))
    simp only [List.cons_append, rollingTime]
    exact Nat.le_trans this (Nat.le_add_left _ _)

/-- The requests of a run, read off the encryption stage. -/
theorem playRequests_playGame (env : Env) (s : AppState) :
    playRequests (playGame env s) =
      match (encryptStage env s).2 with
      | .error _ => []
      | .ok data => [playBody s data] := by
  have hshape := playGameTry_shape env s
  have hcatch : ∀ t, playRequests (playGameCatch t) = [] := by
    intro t; cases t <;> rfl
  have hhandle : ∀ out, playRequests (handlePlayResponse env out).trace = [] := by
    intro out
    cases out with
    | networkError msg => rfl
    | response status body =>
      cases hok : statusOk status <;> cases body with
      | error msg => simp [handlePlayResponse, hok, playRequests]
      | ok v =>
        cases v <;> simp [handlePlayResponse, hok, readProp, playRequests]
        all_goals (split <;> simp [playRequests])
  by_cases hguard : (gameModeOf s == "fhe" && s.isConnected) = true
  · have hsteps := encryptDice_steps env s
    cases hd : encryptDice env s with
    | mk steps res =>
      rw [hd] at hsteps
      cases res with
      | error e =>
        simp [playGame, playGameTry, encryptStage, hguard, hd, playRequests_append,
          playRequests, hcatch, playRequests_encryptSteps steps hsteps]
      | ok data =>
        simp [playGame, playGameTry, encryptStage, hguard, hd, playRequests_append,
          playRequests, hcatch, hhandle, playRequests_encryptSteps steps hsteps]
  · have hstage : encryptStage env s = ([], .ok none) := by
      unfold encryptStage
      rw [if_neg hguard]
    simp [playGame, playGameTry, hstage, playRequests_append, playRequests, hcatch, hhandle]


theorem encryptStage_data (env : Env) (s : AppState) (data : Option EncryptedData)
    (h : (encryptStage env s).2 = .ok data) :
    (data.isSome = true ↔ (gameModeOf s = "fhe" ∧ s.isConnected = true)) ∧
    (∀ d, data = some d → d.mode = "fhe" ∧ ∃ inst,
      s.zamaInstance = some inst ∧
      inst.encrypt32 0 (env.randomFloor1.val + 1) = .ok d.dice1 ∧
      inst.encrypt32 1 (env.randomFloor2.val + 1) = .ok d.dice2) := by
  by_cases hguard : (gameModeOf s == "fhe" && s.isConnected) = true
  · have hg : gameModeOf s = "fhe" ∧ s.isConnected = true := by simpa using hguard
    cases hinst : s.zamaInstance with
    | none => simp [encryptStage, hguard, encryptDice, hinst] at h
    | some inst =>
      cases h1 : inst.encrypt32 0 (env.randomFloor1.val + 1) with
      | error e1 => simp [encryptStage, hguard, encryptDice, hinst, h1] at h
      | ok c1 =>
        cases h2 : inst.encrypt32 1 (env.randomFloor2.val + 1) with
        | error e2 => simp [encryptStage, hguard, encryptDice, hinst, h1, h2] at h
        | ok c2 =>
          simp [encryptStage, hguard, encryptDice, hinst, h1, h2] at h
          subst h
          refine ⟨by simp [hg], ?_⟩
          intro d hd
          cases hd
          exact ⟨rfl, inst, rfl, h1, h2⟩
  · have hstage : encryptStage env s = ([], .ok none) := by
      unfold encryptStage
      rw [if_neg hguard]
    rw [hstage] at h
    cases h
    have hg : ¬ (gameModeOf s = "fhe" ∧ s.isConnected = true) := by simpa using hguard
    exact ⟨by simp [hg], by intro d hd; cases hd⟩

theorem mem_playRequests_playGame (env : Env) (s : AppState) (req : PlayRequest)
    (hreq : req ∈ playRequests (playGame env s)) :
    ∃ data, (encryptStage env s).2 = .ok data ∧ req = playBody s data := by
  rw [playRequests_playGame] at hreq
  cases hst : (encryptStage env s).2 with
  | error e => simp [hst] at hreq
  | ok data =>
    simp [hst] at hreq
    exact ⟨data, rfl, hreq⟩

theorem gameModeOf_fhe_iff (s : AppState) :
    gameModeOf s = "fhe" ↔ (s.isZamaReady = true ∧ s.zamaInstance.isSome = true) := by
  unfold gameModeOf
  by_cases h : (s.isZamaReady && s.zamaInstance.isSome) = true
  · rw [if_pos h]
    simpa using h
  · rw [if_neg h]
    have hne : ¬ ("standard" = "fhe") := by decide
    simpa [hne] using h

/-! ## Mode selection and the submitted request -/

/-- C1 as stated fails: with the encryption session ready and no wallet
connected, the request that `playGame` submits carries `game_mode` "fhe". -/
theorem playGame_fhe_mode_without_wallet :
    readyNoWallet.isConnected = false ∧
    playRequests (playGame (sampleEnv (.response 200 (.ok sampleResult))) readyNoWallet) =
      [{ player_address := none, num_dice := 2, game_mode := "fhe",
         encrypted_data := none, environment_id := environmentId }] :=
  ⟨rfl, rfl⟩

/-- C1 amended: the `game_mode` of every request that `playGame` submits is
"fhe" exactly when the encryption session is ready (`isZamaReady` with a
non-null `zamaInstance`), whether or not a wallet is connected, and it is
"standard" in every other state. -/
theorem playGame_mode_iff_encryption_ready (env : Env) (s : AppState) (req : PlayRequest)
    (hreq : req ∈ playRequests (playGame env s)) :
    (req.game_mode = "fhe" ↔ (s.isZamaReady = true ∧ s.zamaInstance.isSome = true)) ∧
    (¬ (s.isZamaReady = true ∧ s.zamaInstance.isSome = true) →
      req.game_mode = "standard") := by
  obtain ⟨data, -, rfl⟩ := mem_playRequests_playGame env s req hreq
  refine ⟨gameModeOf_fhe_iff s, ?_⟩
  intro hnot
  have hoff : ¬ ((s.isZamaReady && s.zamaInstance.isSome) = true) := by simpa using hnot
  show gameModeOf s = "standard"
  unfold gameModeOf
  rw [if_neg hoff]

/-- Witness for C1 amended: a connected wallet whose encryption session never
became ready submits a "standard" request. -/
theorem playGame_mode_iff_encryption_ready_witness :
    (("standard" : String) = "fhe" ↔
      (({ AppState.initial with isConnected := true, walletAddress := "0xabc" }
          : AppState).isZamaReady = true ∧
       ({ AppState.initial with isConnected := true, walletAddress := "0xabc" }
          : AppState).zamaInstance.isSome = true)) ∧
    (¬ (({ AppState.initial with isConnected := true, walletAddress := "0xabc" }
          : AppState).isZamaReady = true ∧
        ({ AppState.initial with isConnected := true, walletAddress := "0xabc" }
          : AppState).zamaInstance.isSome = true) →
      ("standard" : String) = "standard") :=
  playGame_mode_iff_encryption_ready (sampleEnv (.networkError "Failed to fetch"))
    { AppState.initial with isConnected := true, walletAddress := "0xabc" }
    { player_address := some "0xabc", num_dice := 2, game_mode := "standard",
      encrypted_data := none, environment_id := environmentId }
    (by decide)

/-- C2 fails on the code: when a wallet is connected, the encryption session
is ready and either `encrypt32` call fails, the fallback assignment to the
`const` binding `gameMode` throws, so `playGame` submits no request and ends
in the error state with the message of that `TypeError`. -/
theorem playGame_encrypt_failure_aborts (env : Env) (s : AppState) (inst : ZamaInstance)
    (hconn : s.isConnected = true) (hready : s.isZamaReady = true)
    (hinst : s.zamaInstance = some inst)
    (hfail : (∃ e, inst.encrypt32 0 (env.randomFloor1.val + 1) = .error e) ∨
      (∃ e, inst.encrypt32 1 (env.randomFloor2.val + 1) = .error e)) :
    playRequests (playGame env s) = [] ∧
    (runEffects s (playGame env s)).error = catchMessage env.constAssignMessage ∧
    (runEffects s (playGame env s)).gameResult = .null ∧
    (runEffects s (playGame env s)).isRolling = false := by
  have hmode : gameModeOf s = "fhe" := (gameModeOf_fhe_iff s).2 ⟨hready, by simp [hinst]⟩
  have hsteps := encryptDice_steps env s
  have hthrown : ∃ steps e, encryptDice env s = (steps, .error e) := by
    cases h1 : inst.encrypt32 0 (env.randomFloor1.val + 1) with
    | error e1 =>
      exact ⟨[.awaitEncrypt32 (env.randomFloor1.val + 1) env.encryptElapsed], e1,
        by simp [encryptDice, hinst, h1]⟩
    | ok c1 =>
      rcases hfail with ⟨e, he⟩ | ⟨e, he⟩
      · rw [h1] at he; cases he
      · exact ⟨[.awaitEncrypt32 (env.randomFloor1.val + 1) env.encryptElapsed,
          .awaitEncrypt32 (env.randomFloor2.val + 1) env.encryptElapsed], e,
          by simp [encryptDice, hinst, h1, he]⟩
  obtain ⟨steps, e, hd⟩ := hthrown
  rw [hd] at hsteps
  have htry : playGameTry env s = ⟨steps, some env.constAssignMessage⟩ := by
    simp [playGameTry, encryptStage, hmode, hconn, hd]
  refine ⟨?_, ?_, ?_, ?_⟩
  · rw [playRequests_playGame]
    simp [encryptStage, hmode, hconn, hd]
  all_goals
    simp [playGame, htry, playGameCatch, runEffects_append, runEffects_cons,
      runEffects_nil, runEffects_encryptSteps _ steps hsteps, applyEffect]

/-- Witness for C2: the first `encrypt32` call fails for a connected wallet
with a ready encryption session. -/
theorem playGame_encrypt_failure_aborts_witness :
    playRequests (playGame (sampleEnv (.response 200 (.ok sampleResult)))
      (readyWithWallet failingInstance)) = [] ∧
    (runEffects (readyWithWallet failingInstance)
      (playGame (sampleEnv (.response 200 (.ok sampleResult)))
        (readyWithWallet failingInstance))).error
      = catchMessage (sampleEnv (.response 200 (.ok sampleResult))).constAssignMessage ∧
    (runEffects (readyWithWallet failingInstance)
      (playGame (sampleEnv (.response 200 (.ok sampleResult)))
        (readyWithWallet failingInstance))).gameResult = .null ∧
    (runEffects (readyWithWallet failingInstance)
      (playGame (sampleEnv (.response 200 (.ok sampleResult)))
        (readyWithWallet failingInstance))).isRolling = false :=
  playGame_encrypt_failure_aborts (sampleEnv (.response 200 (.ok sampleResult)))
    (readyWithWallet failingInstance) failingInstance rfl rfl rfl
    (Or.inl ⟨"encrypt32 failed", rfl⟩)

/-- C3 as stated fails: with the encryption session ready and no wallet
connected, the submitted request has `game_mode` "fhe" and `encrypted_data`
`null`. -/
theorem playGame_fhe_mode_without_payload :
    ∃ req, req ∈ playRequests (playGame (sampleEnv (.networkError "Failed to fetch"))
        readyNoWallet) ∧
      req.game_mode = "fhe" ∧ req.encrypted_data = none :=
  ⟨{ player_address := none, num_dice := 2, game_mode := "fhe",
     encrypted_data := none, environment_id := environmentId }, by decide, rfl, rfl⟩

/-- C3 amended: in every request that `playGame` submits, `encrypted_data` is
non-null exactly when `game_mode` is "fhe" and a wallet is connected; a
non-null `encrypted_data` is the bundle of the two ciphertext arrays with mode
"fhe", and a "standard" request never carries one. -/
theorem playGame_payload_iff_fhe_and_connected (env : Env) (s : AppState)
    (req : PlayRequest) (hreq : req ∈ playRequests (playGame env s)) :
    (req.encrypted_data.isSome = true ↔
      (req.game_mode = "fhe" ∧ s.isConnected = true)) ∧
    (req.game_mode = "standard" → req.encrypted_data = none) ∧
    (∀ d, req.encrypted_data = some d → d.mode = "fhe" ∧ ∃ inst,
      s.zamaInstance = some inst ∧
      inst.encrypt32 0 (env.randomFloor1.val + 1) = .ok d.dice1 ∧
      inst.encrypt32 1 (env.randomFloor2.val + 1) = .ok d.dice2) := by
  obtain ⟨data, hst, rfl⟩ := mem_playRequests_playGame env s req hreq
  have hdata := encryptStage_data env s data hst
  refine ⟨hdata.1, ?_, hdata.2⟩
  intro hstd
  have hstd2 : gameModeOf s = "standard" := hstd
  have hne : ¬ (gameModeOf s = "fhe") := by
    rw [hstd2]; decide
  cases hd : data with
  | none => rfl
  | some d =>
    have := hdata.1.1 (by simp [hd])
    exact absurd this.1 hne

/-- Witness for C3 amended: a connected wallet with a ready encryption session
whose two calls succeed. -/
theorem playGame_payload_iff_fhe_and_connected_witness :
    ((some ({ dice1 := [0, 3], dice2 := [1, 4], mode := "fhe" } : EncryptedData)).isSome
        = true ↔
      (("fhe" : String) = "fhe" ∧ (readyWithWallet sampleInstance).isConnected = true)) ∧
    (("fhe" : String) = "standard" →
      some ({ dice1 := [0, 3], dice2 := [1, 4], mode := "fhe" } : EncryptedData) = none) ∧
    (∀ d, some ({ dice1 := [0, 3], dice2 := [1, 4], mode := "fhe" } : EncryptedData)
        = some d → d.mode = "fhe" ∧ ∃ inst,
      (readyWithWallet sampleInstance).zamaInstance = some inst ∧
      inst.encrypt32 0 3 = .ok d.dice1 ∧ inst.encrypt32 1 4 = .ok d.dice2) :=
  playGame_payload_iff_fhe_and_connected (sampleEnv (.response 200 (.ok sampleResult)))
    (readyWithWallet sampleInstance)
    { player_address := some "0xabc", num_dice := 2, game_mode := "fhe",
      encrypted_data := some { dice1 := [0, 3], dice2 := [1, 4], mode := "fhe" },
      environment_id := environmentId }
    (by decide)


/-! ## The roll guard and the outcome of a roll -/

/-- The state when `playGame` completes, by whether the `try` block threw. -/
theorem playGame_final (env : Env) (s : AppState) :
    (runEffects s (playGame env s)).isRolling = false ∧
    ((∃ msg, (playGameTry env s).thrown = some msg ∧
        (runEffects s (playGame env s)).error = catchMessage msg ∧
        (runEffects s (playGame env s)).gameResult = .null) ∨
     ((playGameTry env s).thrown = none ∧
        (runEffects s (playGame env s)).error = "" ∧
        (runEffects s (playGame env s)).gameResult ≠ .null ∧
        ∃ req status, req ∈ playRequests (playGame env s) ∧
          env.playFetch req = .response status (.ok (runEffects s (playGame env s)).gameResult) ∧
          statusOk status = true)) := by
  have hshape := playGameTry_shape env s
  unfold playGame
  generalize playGameTry env s = r at hshape
  cases hshape with
  | encryptFailed steps hsteps hconn hmode =>
    simp [playGameCatch, runEffects_append, runEffects_cons, runEffects_nil,
      runEffects_encryptSteps _ steps hsteps, applyEffect]
  | rejected steps data tail msg hsteps htail hnot =>
    rcases htail with rfl | rfl <;>
      simp [playGameCatch, runEffects_append, runEffects_cons, runEffects_nil,
        runEffects_encryptSteps _ steps hsteps, applyEffect]
  | nullResult steps data status hsteps hfetch hok =>
    simp [playGameCatch, runEffects_append, runEffects_cons, runEffects_nil,
      runEffects_encryptSteps _ steps hsteps, applyEffect]
  | resolved steps data status result modal hsteps hfetch hok hres hmodal =>
    rcases hmodal with rfl | rfl <;>
      simp [playGameCatch, runEffects_append, runEffects_cons, runEffects_nil,
        runEffects_encryptSteps _ steps hsteps, applyEffect, hres,
        playRequests_append, playRequests, playRequests_encryptSteps steps hsteps] <;>
      exact ⟨status, hfetch, hok⟩

/-- Steps that leave `isRolling` as it is keep it through a whole replay. -/
theorem runEffects_isRolling (xs : List Effect)
    (hxs : ∀ e ∈ xs, ∀ st, (applyEffect st e).isRolling = st.isRolling) (st : AppState) :
    (runEffects st xs).isRolling = st.isRolling := by
  induction xs generalizing st with
  | nil => rfl
  | cons e rest ih =>
    rw [runEffects_cons, ih (fun e he => hxs e (by simp [he])), hxs e (by simp)]

/-- Between its first and its last step `playGame` never writes `isRolling`. -/
theorem playGame_middle (env : Env) (s : AppState) :
    ∃ mid, playGame env s = .setIsRolling true :: (mid ++ [.setIsRolling false]) ∧
      ∀ e ∈ mid, ∀ st, (applyEffect st e).isRolling = st.isRolling := by
  have hshape := playGameTry_shape env s
  unfold playGame
  generalize playGameTry env s = r at hshape
  refine ⟨[.setGameResult .null, .setError ""] ++ r.trace ++ playGameCatch r.thrown,
    by simp, ?_⟩
  intro e he st
  have henc : ∀ steps : List Effect, (∀ e ∈ steps, ∃ v ms, e = .awaitEncrypt32 v ms) →
      e ∈ steps → (applyEffect st e).isRolling = st.isRolling := by
    intro steps hsteps hmem
    obtain ⟨v, ms, rfl⟩ := hsteps e hmem
    rfl
  cases hshape with
  | encryptFailed steps hsteps hconn hmode =>
    simp [playGameCatch] at he
    rcases he with rfl | rfl | he | rfl
    · rfl
    · rfl
    · exact henc steps hsteps he
    · rfl
  | rejected steps data tail msg hsteps htail hnot =>
    rcases htail with rfl | rfl
    · simp [playGameCatch] at he
      rcases he with rfl | rfl | he | rfl | rfl
      · rfl
      · rfl
      · exact henc steps hsteps he
      · rfl
      · rfl
    · simp [playGameCatch] at he
      rcases he with rfl | rfl | he | rfl | rfl | rfl
      · rfl
      · rfl
      · exact henc steps hsteps he
      · rfl
      · rfl
      · rfl
  | nullResult steps data status hsteps hfetch hok =>
    simp [playGameCatch] at he
    rcases he with rfl | rfl | he | rfl | rfl | rfl | rfl | rfl
    · rfl
    · rfl
    · exact henc steps hsteps he
    all_goals rfl
  | resolved steps data status result modal hsteps hfetch hok hres hmodal =>
    rcases hmodal with rfl | rfl
    · simp [playGameCatch] at he
      rcases he with rfl | rfl | he | rfl | rfl | rfl | rfl | rfl | rfl
      · rfl
      · rfl
      · exact henc steps hsteps he
      all_goals rfl
    · simp [playGameCatch] at he
      rcases he with rfl | rfl | he | rfl | rfl | rfl | rfl | rfl | rfl | rfl
      · rfl
      · rfl
      · exact henc steps hsteps he
      all_goals rfl

/-- While a roll is in flight (after its first step and before its last),
`isRolling` is `true`. -/
theorem playGame_inflight_isRolling (env : Env) (s : AppState) (k : Nat)
    (hpos : 0 < k) (hlt : k < (playGame env s).length) :
    (runEffects s ((playGame env s).take k)).isRolling = true := by
  obtain ⟨mid, heq, hmid⟩ := playGame_middle env s
  rw [heq] at hlt ⊢
  obtain ⟨j, rfl⟩ : ∃ j, k = j + 1 := ⟨k - 1, by omega⟩
  have hj : j ≤ mid.length := by
    simp at hlt
    omega
  rw [List.take_succ_cons, runEffects_cons, List.take_append_of_le_length hj]
  rw [runEffects_isRolling _ (fun e he => hmid e (List.mem_of_mem_take he))]
  rfl

/-- C4: clicking the Play button while `isRolling` is `true` performs no step:
the state (so `isRolling`, `gameResult` and `error`) is unchanged and no
request is issued; and since `isRolling` is `true` at every point of a roll in
flight, a click during a roll starts no second roll. -/
theorem playButtonClick_noop_while_rolling (env : Env) (s : AppState)
    (hrolling : s.isRolling = true) :
    (playButtonClick env s = [] ∧
      runEffects s (playButtonClick env s) = s ∧
      playRequests (playButtonClick env s) = []) ∧
    (∀ (roll : Env) (before : AppState) (k : Nat),
      0 < k → k < (playGame roll before).length →
      playButtonClick env (runEffects before ((playGame roll before).take k)) = []) := by
  have hnoop : ∀ t : AppState, t.isRolling = true → playButtonClick env t = [] := by
    intro t ht
    unfold playButtonClick
    rw [if_pos ht]
  refine ⟨⟨hnoop s hrolling, ?_, ?_⟩, ?_⟩
  · rw [hnoop s hrolling]; rfl
  · rw [hnoop s hrolling]; rfl
  · intro roll before k hpos hlt
    exact hnoop _ (playGame_inflight_isRolling roll before k hpos hlt)

/-- Witness for C4: a click while the first roll waits for the backend. -/
theorem playButtonClick_noop_while_rolling_witness :
    playButtonClick (sampleEnv (.networkError "Failed to fetch"))
        { AppState.initial with isRolling := true } = [] ∧
    playRequests (playButtonClick (sampleEnv (.networkError "Failed to fetch"))
        { AppState.initial with isRolling := true }) = [] :=
  ⟨(playButtonClick_noop_while_rolling (sampleEnv (.networkError "Failed to fetch"))
      { AppState.initial with isRolling := true } rfl).1.1,
   (playButtonClick_noop_while_rolling (sampleEnv (.networkError "Failed to fetch"))
      { AppState.initial with isRolling := true } rfl).1.2.2⟩

/-- A roll during which no other handler runs: when `playGame` completes,
`isRolling` is `false` and exactly one outcome is set: either `gameResult` is
the non-null result the backend returned with a 2xx status and `error` is
empty, or `error` is a non-empty message and `gameResult` is `null`. -/
theorem playGame_resolved_xor_failed (env : Env) (s : AppState) :
    (runEffects s (playGame env s)).isRolling = false ∧
    (((runEffects s (playGame env s)).error = "" ∧
        (runEffects s (playGame env s)).gameResult ≠ .null ∧
        ∃ req status, req ∈ playRequests (playGame env s) ∧
          env.playFetch req =
            .response status (.ok (runEffects s (playGame env s)).gameResult) ∧
          statusOk status = true) ∨
      ((runEffects s (playGame env s)).error ≠ "" ∧
        (runEffects s (playGame env s)).gameResult = .null)) ∧
    ¬ (((runEffects s (playGame env s)).error = "" ∧
        (runEffects s (playGame env s)).gameResult ≠ .null) ∧
       ((runEffects s (playGame env s)).error ≠ "" ∧
        (runEffects s (playGame env s)).gameResult = .null)) := by
  obtain ⟨hroll, hout⟩ := playGame_final env s
  refine ⟨hroll, ?_, fun h => h.2.1 h.1.1⟩
  rcases hout with ⟨msg, -, herr, hres⟩ | ⟨-, herr, hres, hreq⟩
  · right
    exact ⟨by rw [herr]; exact catchMessage_ne_empty msg, hres⟩
  · left
    exact ⟨herr, hres, hreq⟩


/-! ## Backend rejections -/

/-- What the `try` block throws once a request has been submitted. -/
theorem playGameTry_thrown_of_request (env : Env) (s : AppState) (req : PlayRequest)
    (hreq : req ∈ playRequests (playGame env s)) :
    (playGameTry env s).thrown = (handlePlayResponse env (env.playFetch req)).thrown ∧
    ∃ steps, (∀ e ∈ steps, ∃ v ms, e = .awaitEncrypt32 v ms) ∧
      (playGameTry env s).trace =
        steps ++ [.awaitFetchPlay req env.fetchElapsed]
          ++ (handlePlayResponse env (env.playFetch req)).trace := by
  obtain ⟨data, hst, rfl⟩ := mem_playRequests_playGame env s req hreq
  by_cases hguard : (gameModeOf s == "fhe" && s.isConnected) = true
  · have hsteps := encryptDice_steps env s
    cases hd : encryptDice env s with
    | mk steps res =>
      rw [hd] at hsteps
      cases res with
      | error e => simp [encryptStage, hguard, hd] at hst
      | ok d =>
        simp [encryptStage, hguard, hd] at hst
        subst hst
        exact ⟨by simp [playGameTry, encryptStage, hguard, hd],
          steps, hsteps, by simp [playGameTry, encryptStage, hguard, hd]⟩
  · have hstage : encryptStage env s = ([], .ok none) := by
      unfold encryptStage
      rw [if_neg hguard]
    rw [hstage] at hst
    cases hst
    exact ⟨by simp [playGameTry, hstage], [], by simp, by simp [playGameTry, hstage]⟩

/-- The state when `playGame` completes after the `try` block threw `msg`. -/
theorem playGame_final_of_thrown (env : Env) (s : AppState) (msg : String)
    (hthrown : (playGameTry env s).thrown = some msg) :
    (runEffects s (playGame env s)).error = catchMessage msg ∧
    (runEffects s (playGame env s)).gameResult = .null ∧
    (runEffects s (playGame env s)).isRolling = false := by
  obtain ⟨hroll, hout⟩ := playGame_final env s
  rcases hout with ⟨m, hm, herr, hres⟩ | ⟨hnone, -, -, -⟩
  · rw [hthrown] at hm
    cases hm
    exact ⟨herr, hres, hroll⟩
  · rw [hthrown] at hnone
    cases hnone

/-- C6 as stated fails: a non-2xx response whose `detail` is the empty string
ends with the generic message, not with `detail`. -/
theorem playGame_empty_detail_not_verbatim :
    (Json.obj [("detail", .str "")]).prop "detail" = some (.str "") ∧
    (runEffects AppState.initial
      (playGame (sampleEnv (.response 429 (.ok (.obj [("detail", .str "")]))))
        AppState.initial)).error = "Failed to play game" ∧
    (runEffects AppState.initial
      (playGame (sampleEnv (.response 429 (.ok (.obj [("detail", .str "")]))))
        AppState.initial)).error ≠ "" :=
  ⟨rfl, rfl, by decide⟩

/-- C6 amended: for every non-2xx response to `/api/play` whose JSON body
carries a non-empty `detail` string `d`, `playGame` ends in the Failed state
with `error` equal to `d`; when the body is a JSON value other than `null`
whose `detail` is absent or the empty string, `error` is "Failed to play
game". -/
theorem playGame_rejected_message (env : Env) (s : AppState) (req : PlayRequest)
    (status : Nat) (body : Json)
    (hreq : req ∈ playRequests (playGame env s))
    (hfetch : env.playFetch req = .response status (.ok body))
    (hbad : statusOk status = false) :
    (∀ d, body.prop "detail" = some (.str d) → d ≠ "" →
      (runEffects s (playGame env s)).error = d ∧
      (runEffects s (playGame env s)).gameResult = .null ∧
      (runEffects s (playGame env s)).isRolling = false) ∧
    (body ≠ .null →
      (body.prop "detail" = none ∨ body.prop "detail" = some (.str "")) →
      (runEffects s (playGame env s)).error = "Failed to play game" ∧
      (runEffects s (playGame env s)).gameResult = .null ∧
      (runEffects s (playGame env s)).isRolling = false) := by
  obtain ⟨hthrown, -⟩ := playGameTry_thrown_of_request env s req hreq
  rw [hfetch] at hthrown
  have hread : body ≠ .null →
      (playGameTry env s).thrown = some (rejectionMessage (body.prop "detail")) := by
    intro hnull
    rw [hthrown]
    cases body <;> first
      | exact absurd rfl hnull
      | simp [handlePlayResponse, hbad, readProp]
  constructor
  · intro d hd hne
    have hnull : body ≠ .null := by
      intro h
      rw [h] at hd
      cases hd
    have hfinal := playGame_final_of_thrown env s _ (hread hnull)
    have hmsg : catchMessage (rejectionMessage (body.prop "detail")) = d := by
      simp [hd, rejectionMessage, Json.truthy, Json.toJsString, catchMessage, hne]
    rw [hmsg] at hfinal
    exact hfinal
  · intro hnull hdetail
    have hfinal := playGame_final_of_thrown env s _ (hread hnull)
    have hmsg : catchMessage (rejectionMessage (body.prop "detail"))
        = "Failed to play game" := by
      rcases hdetail with hd | hd <;>
        simp [hd, rejectionMessage, Json.truthy, catchMessage]
    rw [hmsg] at hfinal
    exact hfinal

/-- Witness for C6 amended: the backend answers 429 with detail
"rate limited". -/
theorem playGame_rejected_message_witness :
    (runEffects AppState.initial
      (playGame (sampleEnv (.response 429 (.ok (.obj [("detail", .str "rate limited")]))))
        AppState.initial)).error = "rate limited" :=
  ((playGame_rejected_message
      (sampleEnv (.response 429 (.ok (.obj [("detail", .str "rate limited")]))))
      AppState.initial
      { player_address := none, num_dice := 2, game_mode := "standard",
        encrypted_data := none, environment_id := environmentId }
      429 (.obj [("detail", .str "rate limited")])
      (by decide) rfl (by decide)).1 "rate limited" rfl (by decide)).1

/-! ## The encrypted request -/

/-- C7: with a wallet connected at address `walletAddress`, the encryption
session ready and both `encrypt32` calls succeeding with `c1` and `c2`,
`playGame` submits exactly one request, with `game_mode` "fhe",
`player_address` the wallet address, `num_dice` 2 and `encrypted_data` the
bundle of `c1`, `c2` (in that order) with mode "fhe". -/
theorem playGame_encrypted_request (env : Env) (s : AppState) (inst : ZamaInstance)
    (c1 c2 : List Nat)
    (hconn : s.isConnected = true) (hready : s.isZamaReady = true)
    (hinst : s.zamaInstance = some inst)
    (h1 : inst.encrypt32 0 (env.randomFloor1.val + 1) = .ok c1)
    (h2 : inst.encrypt32 1 (env.randomFloor2.val + 1) = .ok c2) :
    playRequests (playGame env s) =
      [{ player_address := some s.walletAddress, num_dice := 2, game_mode := "fhe",
         encrypted_data := some { dice1 := c1, dice2 := c2, mode := "fhe" },
         environment_id := environmentId }] := by
  have hmode : gameModeOf s = "fhe" := (gameModeOf_fhe_iff s).2 ⟨hready, by simp [hinst]⟩
  rw [playRequests_playGame]
  simp [encryptStage, hmode, hconn, encryptDice, hinst, h1, h2, playBody]

/-- Witness for C7: wallet "0xabc", dice 3 and 4. -/
theorem playGame_encrypted_request_witness :
    playRequests (playGame (sampleEnv (.response 200 (.ok sampleResult)))
        (readyWithWallet sampleInstance)) =
      [{ player_address := some "0xabc", num_dice := 2, game_mode := "fhe",
         encrypted_data := some { dice1 := [0, 3], dice2 := [1, 4], mode := "fhe" },
         environment_id := environmentId }] :=
  playGame_encrypted_request (sampleEnv (.response 200 (.ok sampleResult)))
    (readyWithWallet sampleInstance) sampleInstance [0, 3] [1, 4] rfl rfl rfl rfl rfl


/-! ## The pacing wait -/

/-- C8: in every run of `playGame` that ends Resolved, the steps are: enter
Rolling and clear the previous outcome, then awaits that change no state, then
the 2000 ms timer wait, then `setGameResult` with the result, the optional
modal flag, the two refresh calls and `setIsRolling(false)`; so at least
2000 ms pass while `isRolling` is `true`, whatever the backend latency. -/
theorem playGame_resolved_after_pacing (env : Env) (s : AppState)
    (herr : (runEffects s (playGame env s)).error = "")
    (hres : (runEffects s (playGame env s)).gameResult ≠ .null) :
    (∃ waits modal,
      playGame env s =
        [.setIsRolling true, .setGameResult .null, .setError ""] ++ waits
          ++ [.awaitTimeout 2000 env.timerSlack,
              .setGameResult (runEffects s (playGame env s)).gameResult]
          ++ modal ++ [.callFetchStats, .callFetchGameHistory, .setIsRolling false] ∧
      (∀ e ∈ waits, ∀ st, applyEffect st e = st) ∧
      (∀ e ∈ modal, e = .setShowNFTModal true)) ∧
    2000 ≤ rollingTime s.isRolling (playGame env s) := by
  have hshape := playGameTry_shape env s
  unfold playGame at herr hres ⊢
  generalize playGameTry env s = r at hshape herr hres
  cases hshape with
  | encryptFailed steps hsteps hconn hmode =>
    simp [playGameCatch, runEffects_append, runEffects_cons, runEffects_nil,
      runEffects_encryptSteps _ steps hsteps, applyEffect] at herr
    exact absurd herr (catchMessage_ne_empty _)
  | rejected steps data tail msg hsteps htail hnot =>
    rcases htail with rfl | rfl <;>
      simp [playGameCatch, runEffects_append, runEffects_cons, runEffects_nil,
        runEffects_encryptSteps _ steps hsteps, applyEffect] at herr <;>
      exact absurd herr (catchMessage_ne_empty _)
  | nullResult steps data status hsteps hfetch hok =>
    simp [playGameCatch, runEffects_append, runEffects_cons, runEffects_nil,
      runEffects_encryptSteps _ steps hsteps, applyEffect] at herr
    exact absurd herr (catchMessage_ne_empty _)
  | resolved steps data status result modal hsteps hfetch hok hnull hmodal =>
    have htime : 2000 ≤ rollingTime true
        ([.awaitFetchPlay (playBody s data) env.fetchElapsed, .awaitJson env.jsonElapsed,
          .awaitTimeout 2000 env.timerSlack, .setGameResult result] ++ modal
          ++ [.callFetchStats, .callFetchGameHistory, .setIsRolling false]) := by
      simp only [List.cons_append, rollingTime, Effect.duration]
      simp only [if_true]
      omega
    have hwaits : ∀ e ∈ steps ++ [.awaitFetchPlay (playBody s data) env.fetchElapsed,
        .awaitJson env.jsonElapsed], ∀ st, applyEffect st e = st := by
      intro e he st
      simp at he
      rcases he with he | rfl | rfl
      · obtain ⟨v, ms, rfl⟩ := hsteps e he
        rfl
      · rfl
      · rfl
    refine ⟨⟨steps ++ [.awaitFetchPlay (playBody s data) env.fetchElapsed,
        .awaitJson env.jsonElapsed], modal, ?_, hwaits, ?_⟩, ?_⟩
    · rcases hmodal with rfl | rfl <;>
        simp [playGameCatch, runEffects_append, runEffects_cons, runEffects_nil,
          runEffects_encryptSteps _ steps hsteps, applyEffect]
    · rcases hmodal with rfl | rfl <;> simp
    · have hle := rollingTime_encryptSteps true steps _ hsteps |>.trans' htime
      simpa [playGameCatch, rollingTime, Effect.duration] using hle

/-- Witness for C8: a standard roll that the backend answers with a result. -/
theorem playGame_resolved_after_pacing_witness :
    2000 ≤ rollingTime AppState.initial.isRolling
      (playGame (sampleEnv (.response 200 (.ok sampleResult))) AppState.initial) :=
  (playGame_resolved_after_pacing (sampleEnv (.response 200 (.ok sampleResult)))
    AppState.initial rfl (fun h => Json.noConfusion h)).2

/-- A run of `playGame` that ends Failed has performed the timer wait exactly
when the backend answered with a 2xx status and the body `null`. -/
theorem playGame_failed_timeout_iff_null_result (env : Env) (s : AppState)
    (hfailed : (runEffects s (playGame env s)).error ≠ "") :
    hasTimeout (playGame env s) = true ↔
      ∃ req status, req ∈ playRequests (playGame env s) ∧
        env.playFetch req = .response status (.ok .null) ∧ statusOk status = true := by
  have hshape := playGameTry_shape env s
  unfold playGame at hfailed ⊢
  generalize playGameTry env s = r at hshape hfailed
  cases hshape with
  | encryptFailed steps hsteps hconn hmode =>
    simp [playGameCatch, hasTimeout_append, hasTimeout, playRequests_append, playRequests,
      hasTimeout_encryptSteps steps hsteps, playRequests_encryptSteps steps hsteps]
  | rejected steps data tail msg hsteps htail hnot =>
    rcases htail with rfl | rfl <;>
      simp [playGameCatch, hasTimeout_append, hasTimeout, playRequests_append, playRequests,
        hasTimeout_encryptSteps steps hsteps, playRequests_encryptSteps steps hsteps] <;>
      intro status hfetch <;>
      simp [hnot status .null hfetch]
  | nullResult steps data status hsteps hfetch hok =>
    simp [playGameCatch, hasTimeout_append, hasTimeout, playRequests_append, playRequests,
      hasTimeout_encryptSteps steps hsteps, playRequests_encryptSteps steps hsteps]
    exact ⟨status, hfetch, hok⟩
  | resolved steps data status result modal hsteps hfetch hok hnull hmodal =>
    rcases hmodal with rfl | rfl <;>
      simp [playGameCatch, runEffects_append, runEffects_cons, runEffects_nil,
        runEffects_encryptSteps _ steps hsteps, applyEffect] at hfailed

/-- C9 fails on the code: when the backend answers 200 with the body `null`,
`playGame` performs the 2000 ms wait, then `setGameResult(null)`, and only
then throws on reading `result.nft_generated`; the run ends Failed after the
pacing wait. -/
theorem playGame_null_result_fails_after_pacing :
    playGame (sampleEnv (.response 200 (.ok .null))) AppState.initial =
      [.setIsRolling true, .setGameResult .null, .setError "",
       .awaitFetchPlay
         { player_address := none, num_dice := 2, game_mode := "standard",
           encrypted_data := none, environment_id := environmentId } 10,
       .awaitJson 1, .awaitTimeout 2000 0, .setGameResult .null,
       .setError "Cannot read properties of null", .setIsRolling false] ∧
    hasTimeout (playGame (sampleEnv (.response 200 (.ok .null))) AppState.initial) = true ∧
    (runEffects AppState.initial
      (playGame (sampleEnv (.response 200 (.ok .null))) AppState.initial)).error
      = "Cannot read properties of null" ∧
    (runEffects AppState.initial
      (playGame (sampleEnv (.response 200 (.ok .null))) AppState.initial)).gameResult
      = .null :=
  ⟨rfl, rfl, rfl, rfl⟩


/-! ## Cached statistics and history -/

/-- C10: a `fetchStats` call that fails (network error or non-2xx status)
leaves `stats` as it was, and a `fetchGameHistory` call that fails leaves
`gameHistory` as it was (the empty array if nothing was fetched yet); each
cached value changes only when its fetch got a 2xx response with a parsed
body, and then it is replaced by what that body holds. -/
theorem fetch_failure_keeps_cache (env : Env) (s : AppState)
    (hstats : env.statsFetch.failed = true) (hgames : env.gamesFetch.failed = true) :
    ((runEffects s (fetchStats env)).stats = s.stats ∧
      (runEffects s (fetchGameHistory env)).gameHistory = s.gameHistory ∧
      (runEffects AppState.initial (fetchGameHistory env)).gameHistory = .arr []) ∧
    (∀ (other : Env) (t : AppState),
      ((runEffects t (fetchStats other)).stats = t.stats ∨
        ∃ status, other.statsFetch
            = .response status (.ok (runEffects t (fetchStats other)).stats) ∧
          statusOk status = true) ∧
      ((runEffects t (fetchGameHistory other)).gameHistory = t.gameHistory ∨
        ∃ status data, other.gamesFetch = .response status (.ok data) ∧
          statusOk status = true ∧ data ≠ .null ∧
          (runEffects t (fetchGameHistory other)).gameHistory
            = gamesOrEmpty (data.prop "games"))) := by
  have hkeepStats : ∀ (e : Env) (t : AppState), e.statsFetch.failed = true →
      (runEffects t (fetchStats e)).stats = t.stats := by
    intro e t hfail
    cases hout : e.statsFetch with
    | networkError msg =>
      simp [fetchStats, fetchStatsTry, hout, fetchStatsCatch, runEffects, applyEffect]
    | response status body =>
      have hok : statusOk status = false := by simpa [FetchOutcome.failed, hout] using hfail
      simp [fetchStats, fetchStatsTry, hout, hok, fetchStatsCatch, runEffects, applyEffect]
  have hkeepGames : ∀ (e : Env) (t : AppState), e.gamesFetch.failed = true →
      (runEffects t (fetchGameHistory e)).gameHistory = t.gameHistory := by
    intro e t hfail
    cases hout : e.gamesFetch with
    | networkError msg =>
      simp [fetchGameHistory, fetchGameHistoryTry, hout, fetchGameHistoryCatch, runEffects,
        applyEffect]
    | response status body =>
      have hok : statusOk status = false := by simpa [FetchOutcome.failed, hout] using hfail
      simp [fetchGameHistory, fetchGameHistoryTry, hout, hok, fetchGameHistoryCatch,
        runEffects, applyEffect]
  refine ⟨⟨hkeepStats env s hstats, hkeepGames env s hgames,
    hkeepGames env AppState.initial hgames⟩, ?_⟩
  intro other t
  constructor
  · cases hout : other.statsFetch with
    | networkError msg =>
      exact Or.inl (hkeepStats other t (by simp [FetchOutcome.failed, hout]))
    | response status body =>
      cases hok : statusOk status with
      | false => exact Or.inl (hkeepStats other t (by simp [FetchOutcome.failed, hout, hok]))
      | true =>
        cases body with
        | error msg =>
          left
          simp [fetchStats, fetchStatsTry, hout, hok, fetchStatsCatch, runEffects,
            applyEffect]
        | ok data =>
          right
          refine ⟨status, ?_, hok⟩
          simp [fetchStats, fetchStatsTry, hout, hok, fetchStatsCatch, runEffects,
            applyEffect]
  · cases hout : other.gamesFetch with
    | networkError msg =>
      exact Or.inl (hkeepGames other t (by simp [FetchOutcome.failed, hout]))
    | response status body =>
      cases hok : statusOk status with
      | false => exact Or.inl (hkeepGames other t (by simp [FetchOutcome.failed, hout, hok]))
      | true =>
        cases body with
        | error msg =>
          left
          simp [fetchGameHistory, fetchGameHistoryTry, hout, hok, fetchGameHistoryCatch,
            runEffects, applyEffect]
        | ok data =>
          by_cases hnull : data = .null
          · left
            subst hnull
            simp [fetchGameHistory, fetchGameHistoryTry, hout, hok, readProp,
              fetchGameHistoryCatch, runEffects, applyEffect]
          · right
            refine ⟨status, data, rfl, hok, hnull, ?_⟩
            cases data <;> first
              | exact absurd rfl hnull
              | simp [fetchGameHistory, fetchGameHistoryTry, hout, hok, readProp,
                  fetchGameHistoryCatch, runEffects, applyEffect]

/-- Witness for C10: statistics fetched earlier survive a 503 answer, and the
history of a fresh page stays empty. -/
theorem fetch_failure_keeps_cache_witness :
    (runEffects { AppState.initial with stats := .obj [("total_games", .num 7)] }
        (fetchStats (sampleEnv (.response 503 (.error "Unexpected token"))))).stats
      = .obj [("total_games", .num 7)] ∧
    (runEffects AppState.initial
        (fetchGameHistory (sampleEnv (.response 503 (.error "Unexpected token"))))).gameHistory
      = .arr [] :=
  ⟨(fetch_failure_keeps_cache (sampleEnv (.response 503 (.error "Unexpected token")))
      { AppState.initial with stats := .obj [("total_games", .num 7)] } rfl rfl).1.1,
   (fetch_failure_keeps_cache (sampleEnv (.response 503 (.error "Unexpected token")))
      { AppState.initial with stats := .obj [("total_games", .num 7)] } rfl rfl).1.2.2⟩


/-! ## Refreshes after a roll -/

theorem callsFetchStats_append (xs ys : List Effect) :
    callsFetchStats (xs ++ ys) = (callsFetchStats xs || callsFetchStats ys) := by
  induction xs with
  | nil => rfl
  | cons e rest ih => cases e <;> simp [callsFetchStats, ih]

theorem callsFetchGameHistory_append (xs ys : List Effect) :
    callsFetchGameHistory (xs ++ ys)
      = (callsFetchGameHistory xs || callsFetchGameHistory ys) := by
  induction xs with
  | nil => rfl
  | cons e rest ih => cases e <;> simp [callsFetchGameHistory, ih]

theorem callsFetch_encryptSteps (steps : List Effect)
    (hsteps : ∀ e ∈ steps, ∃ v ms, e = .awaitEncrypt32 v ms) :
    callsFetchStats steps = false ∧ callsFetchGameHistory steps = false := by
  induction steps with
  | nil => exact ⟨rfl, rfl⟩
  | cons e rest ih =>
    obtain ⟨v, ms, rfl⟩ := hsteps e (by simp)
    simpa [callsFetchStats, callsFetchGameHistory] using
      ih (fun e he => hsteps e (by simp [he]))

/-- C11 as stated fails: a roll that ends Failed (here: the `fetch` promise
rejects) calls neither `fetchStats` nor `fetchGameHistory`. -/
theorem playGame_failed_roll_no_refresh :
    (runEffects AppState.initial
      (playGame (sampleEnv (.networkError "Failed to fetch")) AppState.initial)).error
      = "Failed to fetch" ∧
    callsFetchStats
      (playGame (sampleEnv (.networkError "Failed to fetch")) AppState.initial) = false ∧
    callsFetchGameHistory
      (playGame (sampleEnv (.networkError "Failed to fetch")) AppState.initial) = false :=
  ⟨rfl, rfl, rfl⟩

/-- C11 amended: `playGame` triggers the refresh of the stats snapshot
(`fetchStats`) and of the history sequence (`fetchGameHistory`) exactly after
a roll that ends Resolved; a roll that ends Failed triggers neither. -/
theorem playGame_refresh_iff_resolved (env : Env) (s : AppState) :
    (callsFetchStats (playGame env s) = true ↔
      ((runEffects s (playGame env s)).error = "" ∧
        (runEffects s (playGame env s)).gameResult ≠ .null)) ∧
    (callsFetchGameHistory (playGame env s) = true ↔
      ((runEffects s (playGame env s)).error = "" ∧
        (runEffects s (playGame env s)).gameResult ≠ .null)) ∧
    ((runEffects s (playGame env s)).error ≠ "" →
      callsFetchStats (playGame env s) = false ∧
      callsFetchGameHistory (playGame env s) = false) := by
  have hshape := playGameTry_shape env s
  unfold playGame
  generalize playGameTry env s = r at hshape
  cases hshape with
  | encryptFailed steps hsteps hconn hmode =>
    have hne := catchMessage_ne_empty env.constAssignMessage
    simp [playGameCatch, runEffects_append, runEffects_cons, runEffects_nil,
      runEffects_encryptSteps _ steps hsteps, applyEffect, hne,
      callsFetchStats_append, callsFetchGameHistory_append, callsFetchStats,
      callsFetchGameHistory, callsFetch_encryptSteps steps hsteps]
  | rejected steps data tail msg hsteps htail hnot =>
    have hne := catchMessage_ne_empty msg
    rcases htail with rfl | rfl <;>
      simp [playGameCatch, runEffects_append, runEffects_cons, runEffects_nil,
        runEffects_encryptSteps _ steps hsteps, applyEffect, hne,
        callsFetchStats_append, callsFetchGameHistory_append, callsFetchStats,
        callsFetchGameHistory, callsFetch_encryptSteps steps hsteps]
  | nullResult steps data status hsteps hfetch hok =>
    have hne := catchMessage_ne_empty env.nullPropertyMessage
    simp [playGameCatch, runEffects_append, runEffects_cons, runEffects_nil,
      runEffects_encryptSteps _ steps hsteps, applyEffect, hne,
      callsFetchStats_append, callsFetchGameHistory_append, callsFetchStats,
      callsFetchGameHistory, callsFetch_encryptSteps steps hsteps]
  | resolved steps data status result modal hsteps hfetch hok hnull hmodal =>
    rcases hmodal with rfl | rfl <;>
      simp [playGameCatch, runEffects_append, runEffects_cons, runEffects_nil,
        runEffects_encryptSteps _ steps hsteps, applyEffect, hnull,
        callsFetchStats_append, callsFetchGameHistory_append, callsFetchStats,
        callsFetchGameHistory, callsFetch_encryptSteps steps hsteps]

/-! ## Failed refreshes and the roll outcome -/

/-- C12 as stated fails: after a Resolved roll (`gameResult` set, `error`
empty) a failing `fetchStats` sets `error`, and after a Failed roll with the
message "rate limited" a failing `fetchGameHistory` replaces that message. -/
theorem fetch_failure_changes_error :
    (runEffects { AppState.initial with gameResult := sampleResult }
        (fetchStats (sampleEnv (.response 503 (.error "Unexpected token"))))).error
      = "Failed to load statistics" ∧
    ({ AppState.initial with gameResult := sampleResult } : AppState).error = "" ∧
    (runEffects { AppState.initial with error := "rate limited" }
        (fetchGameHistory (sampleEnv (.networkError "Failed to fetch")))).error
      = "Failed to load game history" :=
  ⟨rfl, rfl, rfl⟩

/-- C12 amended: a failing `fetchStats` or `fetchGameHistory` call (network
error or non-2xx status) leaves `isRolling` and `gameResult` as they were, and
sets `error` to "Failed to load statistics", respectively "Failed to load
game history", whatever message or empty value it held before. -/
theorem fetch_failure_keeps_roll_sets_error (env : Env) (s : AppState)
    (hstats : env.statsFetch.failed = true) (hgames : env.gamesFetch.failed = true) :
    ((runEffects s (fetchStats env)).isRolling = s.isRolling ∧
      (runEffects s (fetchStats env)).gameResult = s.gameResult ∧
      (runEffects s (fetchStats env)).error = "Failed to load statistics") ∧
    ((runEffects s (fetchGameHistory env)).isRolling = s.isRolling ∧
      (runEffects s (fetchGameHistory env)).gameResult = s.gameResult ∧
      (runEffects s (fetchGameHistory env)).error = "Failed to load game history") := by
  constructor
  · cases hout : env.statsFetch with
    | networkError msg =>
      simp [fetchStats, fetchStatsTry, hout, fetchStatsCatch, runEffects, applyEffect]
    | response status body =>
      have hok : statusOk status = false := by
        simpa [FetchOutcome.failed, hout] using hstats
      simp [fetchStats, fetchStatsTry, hout, hok, fetchStatsCatch, runEffects, applyEffect]
  · cases hout : env.gamesFetch with
    | networkError msg =>
      simp [fetchGameHistory, fetchGameHistoryTry, hout, fetchGameHistoryCatch, runEffects,
        applyEffect]
    | response status body =>
      have hok : statusOk status = false := by
        simpa [FetchOutcome.failed, hout] using hgames
      simp [fetchGameHistory, fetchGameHistoryTry, hout, hok, fetchGameHistoryCatch,
        runEffects, applyEffect]

/-- Witness for C12 amended: a roll in flight when the backend answers 503 to
both refreshes. -/
theorem fetch_failure_keeps_roll_sets_error_witness :
    (runEffects { AppState.initial with isRolling := true }
        (fetchStats (sampleEnv (.response 503 (.ok .null))))).isRolling = true ∧
    (runEffects { AppState.initial with isRolling := true }
        (fetchGameHistory (sampleEnv (.response 503 (.ok .null))))).error
      = "Failed to load game history" :=
  ⟨(fetch_failure_keeps_roll_sets_error (sampleEnv (.response 503 (.ok .null)))
      { AppState.initial with isRolling := true } rfl rfl).1.1,
   (fetch_failure_keeps_roll_sets_error (sampleEnv (.response 503 (.ok .null)))
      { AppState.initial with isRolling := true } rfl rfl).2.2.2⟩


/-! ## A roll interleaved with other handlers -/

theorem runEffects_gameResult_congr (xs : List Effect) (a b : AppState)
    (h : a.gameResult = b.gameResult) :
    (runEffects a xs).gameResult = (runEffects b xs).gameResult := by
  induction xs generalizing a b with
  | nil => exact h
  | cons e rest ih =>
    rw [runEffects_cons, runEffects_cons]
    apply ih
    cases e <;> simp [applyEffect, h]

theorem runEffects_isRolling_congr (xs : List Effect) (a b : AppState)
    (h : a.isRolling = b.isRolling) :
    (runEffects a xs).isRolling = (runEffects b xs).isRolling := by
  induction xs generalizing a b with
  | nil => exact h
  | cons e rest ih =>
    rw [runEffects_cons, runEffects_cons]
    apply ih
    cases e <;> simp [applyEffect, h]

theorem runEffects_error_congr (xs : List Effect) (a b : AppState)
    (h : a.error = b.error) :
    (runEffects a xs).error = (runEffects b xs).error := by
  induction xs generalizing a b with
  | nil => exact h
  | cons e rest ih =>
    rw [runEffects_cons, runEffects_cons]
    apply ih
    cases e <;> simp [applyEffect, h]

/-- Steps of other handlers leave `isRolling` and `gameResult` as they are. -/
theorem runEffects_fromOtherHandler (pending : List Effect)
    (hpending : ∀ e ∈ pending, e.fromOtherHandler = true) (st : AppState) :
    (runEffects st pending).isRolling = st.isRolling ∧
    (runEffects st pending).gameResult = st.gameResult := by
  induction pending generalizing st with
  | nil => exact ⟨rfl, rfl⟩
  | cons e rest ih =>
    have hrest := ih (fun e he => hpending e (by simp [he])) (applyEffect st e)
    have he := hpending e (by simp)
    rw [runEffects_cons]
    cases e <;> first
      | exact hrest
      | simp [Effect.fromOtherHandler] at he

/-- Steps that do not call `setError` leave `error` as it is. -/
theorem runEffects_no_setError (pending : List Effect)
    (hpending : ∀ e ∈ pending, e.writesError = false) (st : AppState) :
    (runEffects st pending).error = st.error := by
  induction pending generalizing st with
  | nil => rfl
  | cons e rest ih =>
    have hrest := ih (fun e he => hpending e (by simp [he])) (applyEffect st e)
    have he := hpending e (by simp)
    rw [runEffects_cons]
    cases e <;> first
      | exact hrest
      | simp [Effect.writesError] at he

/-- When the `try` block threw, the run ends with the `setError` of the
`catch` block and the `setIsRolling(false)` of the `finally` block. -/
theorem playGame_thrown_tail (env : Env) (s : AppState) (msg : String)
    (hthrown : (playGameTry env s).thrown = some msg) :
    playGame env s =
      ([.setIsRolling true, .setGameResult .null, .setError ""]
        ++ (playGameTry env s).trace)
        ++ [.setError (catchMessage msg), .setIsRolling false] := by
  simp [playGame, hthrown, playGameCatch]

theorem interleave_nil (xs : List Effect) : interleave xs [] = xs := by
  cases xs <;> rfl

/-- Steps that are not awaits admit nothing in between. -/
theorem interleave_no_await (xs : List Effect) (hxs : ∀ e ∈ xs, e.isAwait = false)
    (blocks : List (List Effect)) : interleave xs blocks = xs := by
  induction xs generalizing blocks with
  | nil => rfl
  | cons e rest ih =>
    cases blocks with
    | nil => rfl
    | cons block blocks =>
      have he : e.isAwait = false := hxs e (by simp)
      simp [interleave, he, ih (fun e h => hxs e (by simp [h]))]

theorem interleave_append (xs ys : List Effect) (blocks : List (List Effect)) :
    interleave (xs ++ ys) blocks
      = interleave xs blocks ++ interleave ys (blocks.drop xs.length) := by
  induction xs generalizing blocks with
  | nil => rfl
  | cons e rest ih =>
    cases blocks with
    | nil => simp [interleave, interleave_nil]
    | cons block blocks => simp [interleave, ih]

/-- Blocks of steps of other handlers do not change what the run leaves in
`isRolling` and `gameResult`. -/
theorem runEffects_interleave (roll : List Effect) (blocks : List (List Effect))
    (hblocks : ∀ block ∈ blocks, ∀ e ∈ block, e.fromOtherHandler = true)
    (st : AppState) :
    (runEffects st (interleave roll blocks)).isRolling = (runEffects st roll).isRolling ∧
    (runEffects st (interleave roll blocks)).gameResult
      = (runEffects st roll).gameResult := by
  induction roll generalizing blocks st with
  | nil => exact ⟨rfl, rfl⟩
  | cons e rest ih =>
    cases blocks with
    | nil => exact ⟨rfl, rfl⟩
    | cons block blocks =>
      have hrest := ih blocks (fun b hb => hblocks b (by simp [hb]))
      have hblock : ∀ x ∈ (if e.isAwait then block else []), x.fromOtherHandler = true := by
        intro x hx
        split at hx
        · exact hblocks block (by simp) x hx
        · simp at hx
      have hkeep := runEffects_fromOtherHandler _ hblock (applyEffect st e)
      simp only [interleave, runEffects_cons, runEffects_append]
      constructor
      · rw [(hrest _).1]
        exact runEffects_isRolling_congr rest _ _ hkeep.1
      · rw [(hrest _).2]
        exact runEffects_gameResult_congr rest _ _ hkeep.2

/-- Blocks without a `setError` call do not change what the run leaves in
`error`. -/
theorem runEffects_interleave_error (roll : List Effect) (blocks : List (List Effect))
    (hquiet : ∀ block ∈ blocks, ∀ e ∈ block, e.writesError = false)
    (st : AppState) :
    (runEffects st (interleave roll blocks)).error = (runEffects st roll).error := by
  induction roll generalizing blocks st with
  | nil => rfl
  | cons e rest ih =>
    cases blocks with
    | nil => rfl
    | cons block blocks =>
      have hrest := ih blocks (fun b hb => hquiet b (by simp [hb]))
      have hblock : ∀ x ∈ (if e.isAwait then block else []), x.writesError = false := by
        intro x hx
        split at hx
        · exact hquiet block (by simp) x hx
        · simp at hx
      have hkeep := runEffects_no_setError _ hblock (applyEffect st e)
      simp only [interleave, runEffects_cons, runEffects_append]
      rw [hrest _]
      exact runEffects_error_congr rest _ _ hkeep


/-- C5 as stated fails: `fetchStats`, started when the page mounts, fails while
the roll waits for its 2000 ms timer; the roll then completes with
`gameResult` holding the backend result and `error` non-empty, both set. -/
theorem playGame_resolved_with_error_set :
    fetchStats lateStatsFailureEnv =
      [.setIsLoadingStats true, .awaitFetchStats 10,
       .setError "Failed to load statistics", .setIsLoadingStats false] ∧
    interleave
        (playGame lateStatsFailureEnv
          (runEffects AppState.initial ((fetchStats lateStatsFailureEnv).take 2)))
        [[], [], [], [], [], (fetchStats lateStatsFailureEnv).drop 2]
      = [.setIsRolling true, .setGameResult .null, .setError "",
         .awaitFetchPlay
           { player_address := none, num_dice := 2, game_mode := "standard",
             encrypted_data := none, environment_id := environmentId } 10,
         .awaitJson 1, .awaitTimeout 2000 0,
         .setError "Failed to load statistics", .setIsLoadingStats false,
         .setGameResult sampleResult, .callFetchStats, .callFetchGameHistory,
         .setIsRolling false] ∧
    (runEffects (runEffects AppState.initial ((fetchStats lateStatsFailureEnv).take 2))
      (interleave
        (playGame lateStatsFailureEnv
          (runEffects AppState.initial ((fetchStats lateStatsFailureEnv).take 2)))
        [[], [], [], [], [], (fetchStats lateStatsFailureEnv).drop 2])).gameResult
      = sampleResult ∧
    (runEffects (runEffects AppState.initial ((fetchStats lateStatsFailureEnv).take 2))
      (interleave
        (playGame lateStatsFailureEnv
          (runEffects AppState.initial ((fetchStats lateStatsFailureEnv).take 2)))
        [[], [], [], [], [], (fetchStats lateStatsFailureEnv).drop 2])).error
      = "Failed to load statistics" ∧
    (runEffects (runEffects AppState.initial ((fetchStats lateStatsFailureEnv).take 2))
      (interleave
        (playGame lateStatsFailureEnv
          (runEffects AppState.initial ((fetchStats lateStatsFailureEnv).take 2)))
        [[], [], [], [], [], (fetchStats lateStatsFailureEnv).drop 2])).isRolling
      = false :=
  ⟨rfl, rfl, rfl, rfl, rfl⟩

/-- C5 amended: for every run of `playGame` that completes, with any steps of
other handlers running while the roll is suspended at its awaits, the final
state has `isRolling` false and never neither outcome: either the roll
succeeded and `gameResult` holds the non-null backend result, with `error`
empty provided no other handler called `setError` during the roll, or the roll
failed and `error` is a non-empty message and `gameResult` is `null`. -/
theorem playGame_interleaved_outcome (env : Env) (s : AppState)
    (blocks : List (List Effect))
    (hblocks : ∀ block ∈ blocks, ∀ e ∈ block, e.fromOtherHandler = true) :
    (runEffects s (interleave (playGame env s) blocks)).isRolling = false ∧
    (((runEffects s (interleave (playGame env s) blocks)).gameResult ≠ .null ∧
        (∃ req status, req ∈ playRequests (playGame env s) ∧
          env.playFetch req = .response status
            (.ok (runEffects s (interleave (playGame env s) blocks)).gameResult) ∧
          statusOk status = true) ∧
        ((∀ block ∈ blocks, ∀ e ∈ block, e.writesError = false) →
          (runEffects s (interleave (playGame env s) blocks)).error = "")) ∨
      ((runEffects s (interleave (playGame env s) blocks)).error ≠ "" ∧
        (runEffects s (interleave (playGame env s) blocks)).gameResult = .null)) := by
  obtain ⟨hseqRoll, hseq⟩ := playGame_final env s
  obtain ⟨hroll, hresult⟩ := runEffects_interleave (playGame env s) blocks hblocks s
  refine ⟨hroll.trans hseqRoll, ?_⟩
  rcases hseq with ⟨msg, hthrown, -, hnull⟩ | ⟨-, herr, hres, hreq⟩
  · right
    refine ⟨?_, hresult.trans hnull⟩
    have htail : interleave
        [.setError (catchMessage msg), .setIsRolling false]
        (blocks.drop ([Effect.setIsRolling true, .setGameResult .null, .setError ""]
          ++ (playGameTry env s).trace).length)
        = [.setError (catchMessage msg), .setIsRolling false] := by
      apply interleave_no_await
      intro e he
      simp at he
      rcases he with rfl | rfl <;> rfl
    rw [playGame_thrown_tail env s msg hthrown, interleave_append, htail]
    simp only [runEffects_append, runEffects_cons, runEffects_nil, applyEffect]
    exact catchMessage_ne_empty msg
  · left
    refine ⟨by rw [hresult]; exact hres, ?_, ?_⟩
    · rw [hresult]
      exact hreq
    · intro hquiet
      exact (runEffects_interleave_error (playGame env s) blocks hquiet s).trans herr

/-- Witness for C5 amended: the statistics request fails while a standard roll
waits for its timer; the roll still leaves Rolling. -/
theorem playGame_interleaved_outcome_witness :
    (runEffects AppState.initial
      (interleave (playGame lateStatsFailureEnv AppState.initial)
        [[], [], [], [], [],
         [.setError "Failed to load statistics", .setIsLoadingStats false]])).isRolling
      = false :=
  (playGame_interleaved_outcome lateStatsFailureEnv AppState.initial
    [[], [], [], [], [],
     [.setError "Failed to load statistics", .setIsLoadingStats false]]
    (by
      intro block hblock e he
      simp at hblock
      rcases hblock with rfl | rfl
      · simp at he
      · simp at he
        rcases he with rfl | rfl <;> rfl)).1

end ZamaDice
